import Mathlib

/-!
Shallow embedding of `src/cellprofiler/pipelineio.py`: CellProfiler's YAML
pipeline serialization (`save_yaml`) and deserialization (`load_yaml`).

The YAML text layer (`yaml.safe_dump` / `yaml.safe_load`) round-trips plain
mapping/sequence/scalar trees, so a document is modelled as the parsed tree
(`YValue`); `save_yaml` produces such a tree and `load_yaml` consumes one.
Python mappings are modelled as association lists with distinct keys and
key-based lookup (so their entry order is irrelevant to lookups, matching
Python dict semantics); Python exceptions are modelled with `Except`.

External collaborators of the file are represented as follows:
* `cellprofiler.modules.instantiate_module` (the module registry) is an
  explicit function parameter `inst : String → Except PyErr Module`;
* `cellprofiler.__version__` is a string parameter `cpver`;
* `cellprofiler.preferences.get_headless()` is a boolean parameter;
* the module instance contract (`settings`, `set_settings_from_values`, the
  attribute fields) is modelled on the `Module` structure below.
-/

namespace CPPipeline

/-- A parsed YAML document tree: the plain values `yaml.safe_load` produces
(strings, integers, booleans, sequences, mappings, null). -/
inductive YValue where
  | s (v : String)
  | i (v : Int)
  | b (v : Bool)
  | list (items : List YValue)
  | dict (entries : List (String × YValue))
  | nil

/-- Python exceptions that `pipelineio.py` can raise or observe from its
collaborators (the module registry and the module instances). -/
inductive PyErr where
  | keyError (key : String)
  | typeError
  | valueError
  | indexError
  | attributeError
  | instantiationError (name : String)
  | hydrationError
  deriving DecidableEq

-- Constants of pipelineio.py (lines 14-45).  `COOKIE_KEY`/`COOKIE_VALUE`
-- model the source constants holding the pipeline cookie marker and its value.
def H_HEADER : String := "Header"

def H_PIPELINE_VERSION : String := "PipelineVersion"

def H_CP_VERSION : String := "CellProfilerVersion"

/-- The current pipeline file format version (line 20). -/
def CURRENT_PIPELINE_VERSION : Int := 5

def H_MODULE_COUNT : String := "ModuleCount"

def COOKIE_KEY : String := "CellProfiler Pipeline"

def COOKIE_VALUE : String := "http://www.cellprofiler.org"

def H_PIPELINE_DIMENSION : String := "Volumetric"

def H_MODULE_LIST : String := "Module List"

def M_PRIVATE_ATTRIBUTES : String := "Private Module Attributes"

def M_SETTINGS : String := "Module Settings"

def M_MODULE_NUMBER : String := "module_num"

def M_SVN_VERSION : String := "svn_version"

def M_VARIABLE_REVISION : String := "variable_revision_number"

def M_SHOW_WINDOW : String := "show_window"

def M_NOTES : String := "notes"

def M_BATCH_STATE : String := "batch_state"

def M_ENABLED : String := "enabled"

def M_WANTS_PAUSE : String := "wants_pause"

/-- One module setting as the source uses it: a label (`setting.text`) and a
textual value (`setting.unicode_value`).  Labels may repeat across a module's
settings list. -/
structure Setting where
  text : String
  unicode_value : String
  deriving DecidableEq

/-- A live CellProfiler module instance, as observed by `pipelineio.py`: its
type name, its ordered settings, the fixed private attribute fields that
`cellprofiler.module.Module` always carries, plus dynamically assigned extra
attributes (Python objects accept `setattr` with any name). -/
structure Module where
  module_name : String
  settings : List Setting
  module_num : YValue
  svn_version : YValue
  variable_revision_number : YValue
  show_window : YValue
  notes : YValue
  batch_state : YValue
  enabled : YValue
  wants_pause : YValue
  extra_attrs : List (String × YValue)

/-- First-match lookup in a Python mapping (Python dicts have unique keys, so
first match is the match). -/
def dictLookup : List (String × YValue) → String → Option YValue
  | [], _ => none
  | kv :: rest, k => if kv.1 = k then some kv.2 else dictLookup rest k

/-- Update-or-append for a Python mapping. -/
def dictSet : List (String × YValue) → String → YValue → List (String × YValue)
  | [], k, v => [(k, v)]
  | kv :: rest, k, v => if kv.1 = k then (k, v) :: rest else kv :: dictSet rest k v

/-- Python subscription `x[k]` with a string key: mappings look the key up and
raise `KeyError` when absent; sequences and strings reject string indices with
`TypeError`; other values are not subscriptable. -/
def dictGet : YValue → String → Except PyErr YValue
  | .dict kvs, k =>
    match dictLookup kvs k with
    | some v => .ok v
    | none => .error (.keyError k)
  | _, _ => .error .typeError

/-- Python `getattr(module, name)` on a module instance: the fixed fields of
`cellprofiler.module.Module` first, then the dynamic attribute dictionary. -/
def getattrM (m : Module) (name : String) : Option YValue :=
  if name = M_MODULE_NUMBER then some m.module_num
  else if name = M_SVN_VERSION then some m.svn_version
  else if name = M_VARIABLE_REVISION then some m.variable_revision_number
  else if name = M_SHOW_WINDOW then some m.show_window
  else if name = M_NOTES then some m.notes
  else if name = M_BATCH_STATE then some m.batch_state
  else if name = M_ENABLED then some m.enabled
  else if name = M_WANTS_PAUSE then some m.wants_pause
  else dictLookup m.extra_attrs name

/-- Python `setattr(module, name, value)` on a module instance (line 175):
known fields are overwritten, unknown names are silently added as new
attributes. -/
def setattrM (m : Module) (name : String) (v : YValue) : Module :=
  if name = M_MODULE_NUMBER then { m with module_num := v }
  else if name = M_SVN_VERSION then { m with svn_version := v }
  else if name = M_VARIABLE_REVISION then { m with variable_revision_number := v }
  else if name = M_SHOW_WINDOW then { m with show_window := v }
  else if name = M_NOTES then { m with notes := v }
  else if name = M_BATCH_STATE then { m with batch_state := v }
  else if name = M_ENABLED then { m with enabled := v }
  else if name = M_WANTS_PAUSE then { m with wants_pause := v }
  else { m with extra_attrs := dictSet m.extra_attrs name v }

/-- Digit-prefix parser used by the `StrictVersion` model. -/
def parseNat (cs : List Char) : Option (Nat × List Char) :=
  let ds := cs.takeWhile Char.isDigit
  if ds.isEmpty then none
  else some (ds.foldl (fun a c => a * 10 + (c.toNat - 48)) 0, cs.dropWhile Char.isDigit)

/-- A parsed `distutils.version.StrictVersion`: `major.minor[.patch][{a|b}N]`. -/
structure StrictVer where
  major : Nat
  minor : Nat
  patch : Nat
  pre : Option (Char × Nat)
  deriving DecidableEq

/-- Model of `distutils.version.StrictVersion` parsing (its anchored regex
`\d+ \. \d+ (\. \d+)? ([ab]\d+)?`); `none` models the `ValueError` raised on a
string the regex does not match. -/
def parseStrictVersion (s : String) : Option StrictVer :=
  match parseNat s.data with
  | none => none
  | some (maj, rest) =>
    match rest with
    | '.' :: rest2 =>
      match parseNat rest2 with
      | none => none
      | some (minor, rest3) =>
        let patchRes : Option (Nat × List Char) :=
          match rest3 with
          | '.' :: rest4 => parseNat rest4
          | _ => some (0, rest3)
        match patchRes with
        | none => none
        | some (patch, rest5) =>
          match rest5 with
          | [] => some ⟨maj, minor, patch, none⟩
          | c :: rest6 =>
            if c = 'a' ∨ c = 'b' then
              match parseNat rest6 with
              | some (n, []) => some ⟨maj, minor, patch, some (c, n)⟩
              | _ => none
            else none
    | _ => none

/-- `StrictVersion` comparison: version triples lexicographically, then a
prerelease sorts below the corresponding release and prereleases compare by
letter then number. -/
def StrictVer.lt (a b : StrictVer) : Bool :=
  if a.major ≠ b.major then decide (a.major < b.major)
  else if a.minor ≠ b.minor then decide (a.minor < b.minor)
  else if a.patch ≠ b.patch then decide (a.patch < b.patch)
  else
    match a.pre, b.pre with
    | none, none => false
    | some _, none => true
    | none, some _ => false
    | some p, some q => if p.1 ≠ q.1 then decide (p.1 < q.1) else decide (p.2 < q.2)

/-- `distutils.version.StrictVersion(x)` applied to a YAML value (line 132):
only strings are accepted by its regex match (`TypeError` otherwise), and a
string the regex rejects raises `ValueError`. -/
def strictVersionOf : YValue → Except PyErr StrictVer
  | .s v =>
    match parseStrictVersion v with
    | some sv => .ok sv
    | none => .error .valueError
  | _ => .error .typeError

/-- Python `int(x)` as applied to the header version field (line 119). -/
def pyInt : YValue → Except PyErr Int
  | .i v => .ok v
  | .b v => .ok (if v then 1 else 0)
  | .s v =>
    match v.trim.toInt? with
    | some n => .ok n
    | none => .error .valueError
  | _ => .error .typeError

/-- Python membership test `COOKIE_KEY in pipeline_dict` (line 108): mappings
test their keys, sequences their items, strings test substrings, and other
values raise `TypeError` (not iterable). -/
def cookieCheck : YValue → Except PyErr Bool
  | .dict kvs => .ok (kvs.any fun kv => kv.1 == COOKIE_KEY)
  | .list xs =>
    .ok (xs.any fun x =>
      match x with
      | .s v => v == COOKIE_KEY
      | _ => false)
  | .s v => .ok (decide (2 ≤ (v.splitOn COOKIE_KEY).length))
  | _ => .error .typeError

/-- Python iteration `for module_block in pipeline_dict[H_MODULE_LIST]`
(line 158): sequences iterate their items; a nonempty mapping yields its first
key, a string, whose `.keys()` call in the loop body raises `AttributeError`;
an empty mapping or string iterates zero times; scalars are not iterable. -/
def iterBlocks : YValue → Except PyErr (List YValue)
  | .list xs => .ok xs
  | .dict [] => .ok []
  | .dict (_ :: _) => .error .attributeError
  | .s v => if v.isEmpty then .ok [] else .error .attributeError
  | _ => .error .typeError

/-- Lines 160-161: `module_name = module_block.keys()[0]` (first and only key;
`IndexError` on an empty mapping, `AttributeError` when the block is not a
mapping) and `module_info = module_block[module_name]`. -/
def blockSplit : YValue → Except PyErr (String × YValue)
  | .dict [] => .error .indexError
  | .dict (kv :: rest) =>
    match dictLookup (kv :: rest) kv.1 with
    | some info => .ok (kv.1, info)
    | none => .error (.keyError kv.1)
  | _ => .error .attributeError

/-- Python `setting.values()` for one entry of the settings list (line 182):
the values of a mapping, in entry order; `AttributeError` otherwise. -/
def settingValues : YValue → Except PyErr (List YValue)
  | .dict kvs => .ok (kvs.map Prod.snd)
  | _ => .error .attributeError

/-- The flattening comprehension of line 182, element by element, failing at
the first non-mapping entry. -/
def flattenList : List YValue → Except PyErr (List YValue)
  | [] => .ok []
  | x :: rest =>
    match settingValues x with
    | .error e => .error e
    | .ok vs =>
      match flattenList rest with
      | .error e => .error e
      | .ok rs => .ok (vs ++ rs)

/-- Line 182 applied to `module_info[M_SETTINGS]`: iterate the settings value
and concatenate each entry's mapping values.  Iterating a nonempty mapping or
string yields strings whose `.values()` raises `AttributeError`; scalars are
not iterable. -/
def flattenSettings : YValue → Except PyErr (List YValue)
  | .list xs => flattenList xs
  | .dict [] => .ok []
  | .dict (_ :: _) => .error .attributeError
  | .s v => if v.isEmpty then .ok [] else .error .attributeError
  | _ => .error .typeError

/-- All-strings refinement of a value list (setting values are stored as their
serialized textual form). -/
def valuesAsStrings : List YValue → Option (List String)
  | [] => some []
  | .s v :: rest => (valuesAsStrings rest).map (v :: ·)
  | _ :: _ => none

/-- Modelled from the spec: `module.set_settings_from_values(values, revision,
name)` (line 185) belongs to `cellprofiler.module`, which is not under `src/`.
Per the module instance contract of the spec the operation receives the plain
ordered value sequence, the recorded schema revision and the type name, and
either hydrates the module's own ordered settings with those textual values or
fails with a hydration error (here: a non-string value or a value count that
does not match the module's settings). -/
def set_settings_from_values (m : Module) (values : List YValue)
    (_revision : YValue) (_module_name : String) : Except PyErr Module :=
  match valuesAsStrings values with
  | none => .error .hydrationError
  | some vs =>
    if vs.length = m.settings.length then
      .ok { m with
        settings := List.zipWith (fun s v => { text := s.text, unicode_value := v }) m.settings vs }
    else .error .hydrationError

/-- The body of the per-module `try` block (lines 163-187): instantiate the
module through the registry, apply the private attributes with `setattr`,
flatten the settings list, and delegate to `set_settings_from_values` with the
recorded `variable_revision_number`. -/
def loadOneModule (inst : String → Except PyErr Module) (module_name : String)
    (module_info : YValue) : Except PyErr Module :=
  match inst module_name with
  | .error e => .error e
  | .ok module0 =>
    match dictGet module_info M_PRIVATE_ATTRIBUTES with
    | .error e => .error e
    | .ok pav =>
      match pav with
      | .dict pa =>
        let module1 := pa.foldl (fun m kv => setattrM m kv.1 kv.2) module0
        match dictGet module_info M_SETTINGS with
        | .error e => .error e
        | .ok msv =>
          match flattenSettings msv with
          | .error e => .error e
          | .ok values =>
            match dictLookup pa M_VARIABLE_REVISION with
            | none => .error (.keyError M_VARIABLE_REVISION)
            | some revision => set_settings_from_values module1 values revision module_name
      | _ => .error .attributeError

/-- Events on the logging channel of `pipelineio.py`, in emission order. -/
inductive LogEvent where
  | warnMaybeNotValidPipeline
  | warnOldProducerVersion
  | warnFailedToLoadModule (name : String) (num : Nat)
  | logException (e : PyErr)
  | warnContinuing
  | warnModulesNotImported (count : Int)
  | errorUnableToLoad (key : String)
  deriving DecidableEq

/-- The module loop of lines 157-198: `module_number` starts at 1 and is
incremented only after a successful append; a failing record logs
`"Failed to load module {name}-{module_number}"`, re-raises under
`raise_on_error`, and is otherwise skipped with two further log calls. -/
def loadModulesLoop (inst : String → Except PyErr Module) (raise_on_error : Bool) :
    List YValue → Nat → List Module → List LogEvent →
    Except PyErr (List Module) × List LogEvent
  | [], _, acc, logs => (.ok acc, logs)
  | blk :: rest, n, acc, logs =>
    match blockSplit blk with
    | .error e => (.error e, logs)
    | .ok (name, info) =>
      match loadOneModule inst name info with
      | .ok m => loadModulesLoop inst raise_on_error rest (n + 1) (acc ++ [m]) logs
      | .error e =>
        let logs1 := logs ++ [.warnFailedToLoadModule name n]
        if raise_on_error then (.error e, logs1)
        else loadModulesLoop inst raise_on_error rest n acc
          (logs1 ++ [.logException e, .warnContinuing])

/-- Lines 200-201 under Python 2 comparison semantics: numbers compare
numerically against `len(new_modules)`, strings and lists always exceed an
int, mappings and `None` never do; when the warning fires, the subtraction in
its format argument raises `TypeError` for non-numeric counts. -/
def countAdvisory : YValue → Nat → Except PyErr (List LogEvent)
  | .i v, n => .ok (if v > (n : Int) then [.warnModulesNotImported (v - n)] else [])
  | .b bv, n =>
    .ok (if (if bv then (1 : Int) else 0) > (n : Int)
      then [.warnModulesNotImported ((if bv then (1 : Int) else 0) - n)] else [])
  | .s _, _ => .error .typeError
  | .list _, _ => .error .typeError
  | .dict _, _ => .ok []
  | .nil, _ => .ok []

/-- Exceptions escaping the body of the outer `try` in `load_yaml`: the
`PipelineLoadException` raised by the version gate (line 123) or an ordinary
Python exception. -/
inductive InnerErr where
  | tooNew (fileVersion maxVersion : Int)
  | py (e : PyErr)
  deriving DecidableEq

/-- What the caller of `load_yaml` observes on failure: the version-gate
`PipelineLoadException` (lines 122-128), a `PipelineLoadException` wrapping a
`KeyError` (lines 205-208), or an exception propagating uncaught. -/
inductive LoadError where
  | pipelineVersionTooNew (fileVersion maxVersion : Int)
  | pipelineKeyError (key : String)
  | uncaught (e : PyErr)
  deriving DecidableEq

/-- Lines 205-208: only `KeyError` is caught and wrapped in
`PipelineLoadException`; everything else propagates uncaught. -/
def promote : PyErr → LoadError
  | .keyError k => .pipelineKeyError k
  | e => .uncaught e

/-- The body of the outer `try` of `load_yaml` (lines 115-203): header
extraction, the format-version gate, the producer-version advisory, the
dimensionality and module-count reads, and the module loop with its final
count reconciliation.  Results are paired with the emitted log events. -/
def loadInner (cpver : String) (is_headless : Bool)
    (inst : String → Except PyErr Module) (pipeline_dict : YValue)
    (raise_on_error : Bool) :
    Except InnerErr (List Module × YValue) × List LogEvent :=
  match dictGet pipeline_dict H_HEADER with
  | .error e => (.error (.py e), [])
  | .ok header =>
    match dictGet header H_PIPELINE_VERSION with
    | .error e => (.error (.py e), [])
    | .ok pvRaw =>
      match pyInt pvRaw with
      | .error e => (.error (.py e), [])
      | .ok pipeline_version =>
        if pipeline_version > CURRENT_PIPELINE_VERSION then
          (.error (.tooNew pipeline_version CURRENT_PIPELINE_VERSION), [])
        else
          match dictGet header H_CP_VERSION with
          | .error e => (.error (.py e), [])
          | .ok cpvRaw =>
            match strictVersionOf cpvRaw with
            | .error e => (.error (.py e), [])
            | .ok cp_version =>
              match parseStrictVersion cpver with
              | none => (.error (.py .valueError), [])
              | some readerVersion =>
                let verLogs :=
                  if cp_version.lt readerVersion && !is_headless
                  then [LogEvent.warnOldProducerVersion] else []
                match dictGet header H_PIPELINE_DIMENSION with
                | .error e => (.error (.py e), verLogs)
                | .ok volumetric =>
                  match dictGet header H_MODULE_COUNT with
                  | .error e => (.error (.py e), verLogs)
                  | .ok module_count =>
                    match dictGet pipeline_dict H_MODULE_LIST with
                    | .error e => (.error (.py e), verLogs)
                    | .ok mlistRaw =>
                      match iterBlocks mlistRaw with
                      | .error e => (.error (.py e), verLogs)
                      | .ok blocks =>
                        match loadModulesLoop inst raise_on_error blocks 1 [] [] with
                        | (.error e, mlogs) => (.error (.py e), verLogs ++ mlogs)
                        | (.ok new_modules, mlogs) =>
                          match countAdvisory module_count new_modules.length with
                          | .error e => (.error (.py e), verLogs ++ mlogs)
                          | .ok clogs =>
                            (.ok (new_modules, volumetric), verLogs ++ mlogs ++ clogs)

/-- `load_yaml` (lines 103-208) on an already parsed document tree: the cookie
advisory, then the outer `try` body, with `KeyError` caught and wrapped in
`PipelineLoadException` (after two log calls) and everything else propagating.
Returns the caller-visible outcome paired with the emitted log events; on
success the outcome is the materialized modules and the raw header
dimensionality value. -/
def load_yaml (cpver : String) (is_headless : Bool)
    (inst : String → Except PyErr Module) (pipeline_dict : YValue)
    (raise_on_error : Bool) :
    Except LoadError (List Module × YValue) × List LogEvent :=
  match cookieCheck pipeline_dict with
  | .error e => (.error (.uncaught e), [])
  | .ok hasCookie =>
    let logs0 : List LogEvent :=
      if hasCookie then [] else [.warnMaybeNotValidPipeline]
    match loadInner cpver is_headless inst pipeline_dict raise_on_error with
    | (.ok r, logs) => (.ok r, logs0 ++ logs)
    | (.error (.tooNew v maxv), logs) =>
      (.error (.pipelineVersionTooNew v maxv), logs0 ++ logs)
    | (.error (.py e), logs) =>
      (.error (promote e), logs0 ++ logs ++
        (match e with
         | PyErr.keyError k => [.errorUnableToLoad k, .logException (.keyError k)]
         | _ => []))

/-- Line 74: `module.module_num not in modules_to_save` decides skipping; the
subset filter is a collection of module numbers (ints), and a non-int
`module_num` is never a member. -/
def keepModule (modules_to_save : Option (List Int)) (m : Module) : Bool :=
  match modules_to_save with
  | none => true
  | some l =>
    match m.module_num with
    | .i n => l.contains n
    | _ => false

/-- The private-attributes block `save_yaml` writes: exactly the `attributes`
tuple of lines 69-70, read back with `getattr` (`batch_state` is not in that
tuple). -/
def savedPrivateAttrs (m : Module) : List (String × YValue) :=
  [(M_MODULE_NUMBER, m.module_num),
   (M_SVN_VERSION, m.svn_version),
   (M_VARIABLE_REVISION, m.variable_revision_number),
   (M_SHOW_WINDOW, m.show_window),
   (M_NOTES, m.notes),
   (M_ENABLED, m.enabled),
   (M_WANTS_PAUSE, m.wants_pause)]

/-- Lines 77-86: the per-module record — the settings as an ordered list of
single-entry mappings, then the private attributes block. -/
def moduleInfoOf (m : Module) : YValue :=
  .dict [
    (M_SETTINGS, .list (m.settings.map fun s => .dict [(s.text, .s s.unicode_value)])),
    (M_PRIVATE_ATTRIBUTES, .dict (savedPrivateAttrs m))]

/-- `save_yaml` (lines 54-98) up to the YAML text layer: the produced document
tree.  The header `ModuleCount` is `len(modules)` (line 64), computed from the
full input list; the module list holds one single-entry mapping per module
passing the `modules_to_save` filter (lines 73-92). -/
def save_yaml (cpver : String) (modules : List Module)
    (modules_to_save : Option (List Int)) (volumetric : Bool) : YValue :=
  .dict [
    (COOKIE_KEY, .s COOKIE_VALUE),
    (H_HEADER, .dict [
      (H_CP_VERSION, .s cpver),
      (H_PIPELINE_VERSION, .i CURRENT_PIPELINE_VERSION),
      (H_PIPELINE_DIMENSION, .b volumetric),
      (H_MODULE_COUNT, .i modules.length)]),
    (H_MODULE_LIST, .list ((modules.filter (keepModule modules_to_save)).map
      fun m => .dict [(m.module_name, moduleInfoOf m)]))]

/-- Observer: the header `ModuleCount` value of a saved document. -/
def savedDeclaredCount (doc : YValue) : Option YValue :=
  match dictGet doc H_HEADER with
  | .ok header =>
    match dictGet header H_MODULE_COUNT with
    | .ok v => some v
    | .error _ => none
  | .error _ => none

/-- Observer: the module records of a saved document. -/
def savedModuleBlocks (doc : YValue) : Option (List YValue) :=
  match dictGet doc H_MODULE_LIST with
  | .ok (.list xs) => some xs
  | _ => none

/-- Discriminator for the per-module failure log event of line 194. -/
def isModuleFailureLog : LogEvent → Bool
  | .warnFailedToLoadModule _ _ => true
  | _ => false

/-- Discriminator for the count-mismatch advisory of line 201. -/
def isCountMismatchLog : LogEvent → Bool
  | .warnModulesNotImported _ => true
  | _ => false

/-- The module that materializing a saved record for `m` produces when the
registry returned the fresh instance `m0`: the fresh instance with the seven
written attributes and the settings restored from the file; the opaque blob
and any extra attributes stay those of the fresh instance. -/
def rehydrate (m m0 : Module) : Module :=
  { m0 with
    module_num := m.module_num
    svn_version := m.svn_version
    variable_revision_number := m.variable_revision_number
    show_window := m.show_window
    notes := m.notes
    enabled := m.enabled
    wants_pause := m.wants_pause
    settings := m.settings }

/-- Concrete fixture for the round trip: a module with two identically
labelled settings and a nonempty opaque state blob. -/
def c2mod : Module :=
  { module_name := "ModA"
    settings := [⟨"X", "1"⟩, ⟨"X", "2"⟩]
    module_num := .i 1
    svn_version := .s "42"
    variable_revision_number := .i 3
    show_window := .b false
    notes := .list [.s "note"]
    batch_state := .s "BLOB"
    enabled := .b true
    wants_pause := .b false
    extra_attrs := [] }

/-- Concrete fixture: the fresh instance the registry returns for `"ModA"` —
same setting labels, default values, empty blob. -/
def c2fresh : Module :=
  { module_name := "ModA"
    settings := [⟨"X", ""⟩, ⟨"X", ""⟩]
    module_num := .i 0
    svn_version := .s ""
    variable_revision_number := .i 0
    show_window := .b true
    notes := .list []
    batch_state := .s ""
    enabled := .b false
    wants_pause := .b false
    extra_attrs := [] }

/-- Concrete fixture registry resolving only `"ModA"`. -/
def c2inst : String → Except PyErr Module :=
  fun n => if n = "ModA" then .ok c2fresh else .error (.instantiationError n)

/-- Concrete fixture for the declared-count claim: module number 1. -/
def c5modP : Module :=
  { c2mod with module_name := "ModP", module_num := .i 1 }

/-- Concrete fixture for the declared-count claim: module number 2. -/
def c5modQ : Module :=
  { c2mod with module_name := "ModQ", module_num := .i 2 }

/-- Concrete fixture: a fresh settings-free instance named `"Good"`. -/
def c3fresh : Module :=
  { module_name := "Good"
    settings := []
    module_num := .i 0
    svn_version := .s ""
    variable_revision_number := .i 0
    show_window := .b false
    notes := .list []
    batch_state := .s ""
    enabled := .b true
    wants_pause := .b false
    extra_attrs := [] }

/-- Concrete fixture registry resolving only `"Good"`. -/
def c3inst : String → Except PyErr Module :=
  fun n => if n = "Good" then .ok c3fresh else .error (.instantiationError n)

/-- Concrete fixture: a well-formed record for `"Good"` with no settings. -/
def c3info : YValue :=
  .dict [(M_SETTINGS, .list []),
    (M_PRIVATE_ATTRIBUTES, .dict [(M_VARIABLE_REVISION, .i 1)])]

/-- Concrete fixture: the module materialized from `c3info`. -/
def c3loaded : Module :=
  { c3fresh with variable_revision_number := .i 1 }

/-- Concrete fixture: a three-record document — good, unresolvable, good. -/
def c3doc : YValue :=
  .dict [(COOKIE_KEY, .s COOKIE_VALUE),
    (H_HEADER, .dict [(H_CP_VERSION, .s "3.1.9"), (H_PIPELINE_VERSION, .i 5),
      (H_PIPELINE_DIMENSION, .b false), (H_MODULE_COUNT, .i 3)]),
    (H_MODULE_LIST, .list [.dict [("Good", c3info)], .dict [("Bad", .dict [])],
      .dict [("Good", c3info)]])]

/-- Concrete fixture: a fresh settings-free instance named `"Pos"`. -/
def c6fresh : Module :=
  { c3fresh with module_name := "Pos" }

/-- Concrete fixture registry resolving only `"Pos"`. -/
def c6inst : String → Except PyErr Module :=
  fun n => if n = "Pos" then .ok c6fresh else .error (.instantiationError n)

/-- Concrete fixture: a record for `"Pos"` declaring file position 5. -/
def c6info : YValue :=
  .dict [(M_SETTINGS, .list []),
    (M_PRIVATE_ATTRIBUTES, .dict [(M_MODULE_NUMBER, .i 5), (M_VARIABLE_REVISION, .i 1)])]

/-- Concrete fixture: the module materialized from `c6info`. -/
def c6loaded : Module :=
  { c6fresh with module_num := .i 5, variable_revision_number := .i 1 }

/-- Concrete fixture: a one-record document whose module declares position 5. -/
def c6doc : YValue :=
  .dict [(COOKIE_KEY, .s COOKIE_VALUE),
    (H_HEADER, .dict [(H_CP_VERSION, .s "3.1.9"), (H_PIPELINE_VERSION, .i 5),
      (H_PIPELINE_DIMENSION, .b false), (H_MODULE_COUNT, .i 1)]),
    (H_MODULE_LIST, .list [.dict [("Pos", c6info)]])]

/-- Concrete fixture: a record for `"Pos"` declaring file position 7. -/
def c6info7 : YValue :=
  .dict [(M_SETTINGS, .list []),
    (M_PRIVATE_ATTRIBUTES, .dict [(M_MODULE_NUMBER, .i 7), (M_VARIABLE_REVISION, .i 1)])]

/-- Concrete fixture: the module materialized from `c6info7`. -/
def c6loaded7 : Module :=
  { c6fresh with module_num := .i 7, variable_revision_number := .i 1 }

/-- Concrete fixture: a three-record document — unresolvable, good (declaring
position 7), unresolvable. -/
def c6doc3 : YValue :=
  .dict [(COOKIE_KEY, .s COOKIE_VALUE),
    (H_HEADER, .dict [(H_CP_VERSION, .s "3.1.9"), (H_PIPELINE_VERSION, .i 5),
      (H_PIPELINE_DIMENSION, .b false), (H_MODULE_COUNT, .i 3)]),
    (H_MODULE_LIST, .list [.dict [("BadX", .dict [])], .dict [("Pos", c6info7)],
      .dict [("BadY", .dict [])]])]

/-- Concrete fixture: a fresh settings-free instance named `"Ext"`. -/
def c10fresh : Module :=
  { c3fresh with module_name := "Ext" }

/-- Concrete fixture registry resolving only `"Ext"`. -/
def c10inst : String → Except PyErr Module :=
  fun n => if n = "Ext" then .ok c10fresh else .error (.instantiationError n)

/-- Concrete fixture: a record whose private attributes carry a key outside
the fixed documented field set. -/
def c10info : YValue :=
  .dict [(M_SETTINGS, .list []),
    (M_PRIVATE_ATTRIBUTES, .dict [(M_VARIABLE_REVISION, .i 1),
      ("custom_field", .s "42")])]

/-- Concrete fixture: the module materialized from `c10info`, the unknown key
silently set as a dynamic attribute. -/
def c10loaded : Module :=
  { c10fresh with
    variable_revision_number := .i 1
    extra_attrs := [("custom_field", .s "42")] }

/-- Agreement on everything `save_yaml` writes for one module: type name, the
full ordered settings list, and the seven private attributes of the
`attributes` tuple (lines 69-70).  `batch_state` and dynamic extra attributes
are not written by `save_yaml`. -/
def moduleAgrees (a b : Module) : Prop :=
  a.module_name = b.module_name ∧ a.settings = b.settings ∧
  a.module_num = b.module_num ∧ a.svn_version = b.svn_version ∧
  a.variable_revision_number = b.variable_revision_number ∧
  a.show_window = b.show_window ∧ a.notes = b.notes ∧
  a.enabled = b.enabled ∧ a.wants_pause = b.wants_pause

/-! ## General lemmas about the embedding -/

/-- Subscription only succeeds on mappings. -/
theorem dictGet_ok_dict (y : YValue) (k : String) (v : YValue)
    (h : dictGet y k = .ok v) : ∃ kvs, y = .dict kvs := by
  cases y <;> simp_all [dictGet]

/-- Unfolding `load_yaml` on a mapping document: the cookie membership test
succeeds and everything else is the outer `try` dispatch. -/
theorem load_yaml_dict (cpver : String) (hl : Bool)
    (inst : String → Except PyErr Module) (kvs : List (String × YValue))
    (strict : Bool) :
    load_yaml cpver hl inst (.dict kvs) strict =
      (let logs0 : List LogEvent :=
        if kvs.any (fun kv => kv.1 == COOKIE_KEY) then [] else [.warnMaybeNotValidPipeline]
      match loadInner cpver hl inst (.dict kvs) strict with
      | (.ok r, logs) => (.ok r, logs0 ++ logs)
      | (.error (.tooNew v maxv), logs) =>
        (.error (.pipelineVersionTooNew v maxv), logs0 ++ logs)
      | (.error (.py e), logs) =>
        (.error (promote e), logs0 ++ logs ++
          (match e with
           | PyErr.keyError k => [.errorUnableToLoad k, .logException (.keyError k)]
           | _ => []))) := rfl

/-- Unfolding the outer `try` body on a document whose header reads all
succeed and whose format version passes the gate. -/
theorem loadInner_eq (cpver : String) (hl : Bool)
    (inst : String → Except PyErr Module)
    (doc header pv cpv vol mc ml : YValue) (strict : Bool) (vnum : Int)
    (sv rv : StrictVer) (blocks : List YValue)
    (h1 : dictGet doc H_HEADER = .ok header)
    (h2 : dictGet header H_PIPELINE_VERSION = .ok pv)
    (h3 : pyInt pv = .ok vnum)
    (h4 : vnum ≤ CURRENT_PIPELINE_VERSION)
    (h5 : dictGet header H_CP_VERSION = .ok cpv)
    (h6 : strictVersionOf cpv = .ok sv)
    (h7 : parseStrictVersion cpver = some rv)
    (h8 : dictGet header H_PIPELINE_DIMENSION = .ok vol)
    (h9 : dictGet header H_MODULE_COUNT = .ok mc)
    (h10 : dictGet doc H_MODULE_LIST = .ok ml)
    (h11 : iterBlocks ml = .ok blocks) :
    loadInner cpver hl inst doc strict =
      (let verLogs : List LogEvent :=
        if sv.lt rv && !hl then [.warnOldProducerVersion] else []
      match loadModulesLoop inst strict blocks 1 [] [] with
      | (.error e, mlogs) => (.error (.py e), verLogs ++ mlogs)
      | (.ok new_modules, mlogs) =>
        match countAdvisory mc new_modules.length with
        | .error e => (.error (.py e), verLogs ++ mlogs)
        | .ok clogs => (.ok (new_modules, vol), verLogs ++ mlogs ++ clogs)) := by
  simp only [loadInner, h1, h2, h3, h5, h6, h7, h8, h9, h10, h11]
  rw [if_neg (not_lt.mpr h4)]

/-- A set key is found by lookup. -/
theorem dictLookup_dictSet_self (l : List (String × YValue)) (k : String) (v : YValue) :
    dictLookup (dictSet l k v) k = some v := by
  induction l with
  | nil => simp [dictSet, dictLookup]
  | cons kv rest ih => by_cases h : kv.1 = k <;> simp [dictSet, dictLookup, h, ih]

/-- Setting one key leaves lookups of other keys unchanged. -/
theorem dictLookup_dictSet_ne (l : List (String × YValue)) (k k2 : String) (v : YValue)
    (h : k2 ≠ k) : dictLookup (dictSet l k2 v) k = dictLookup l k := by
  induction l with
  | nil => simp [dictSet, dictLookup, h]
  | cons kv rest ih => by_cases hkv : kv.1 = k2 <;> simp [dictSet, dictLookup, hkv, ih, h]

/-- `setattr` then `getattr` of the same name yields the assigned value. -/
theorem getattrM_setattrM_self (m : Module) (k : String) (v : YValue) :
    getattrM (setattrM m k v) k = some v := by
  by_cases h1 : k = M_MODULE_NUMBER
  · subst h1; rfl
  by_cases h2 : k = M_SVN_VERSION
  · subst h2; rfl
  by_cases h3 : k = M_VARIABLE_REVISION
  · subst h3; rfl
  by_cases h4 : k = M_SHOW_WINDOW
  · subst h4; rfl
  by_cases h5 : k = M_NOTES
  · subst h5; rfl
  by_cases h6 : k = M_BATCH_STATE
  · subst h6; rfl
  by_cases h7 : k = M_ENABLED
  · subst h7; rfl
  by_cases h8 : k = M_WANTS_PAUSE
  · subst h8; rfl
  simp [getattrM, setattrM, h1, h2, h3, h4, h5, h6, h7, h8, dictLookup_dictSet_self]

/-- `setattr` of one name leaves `getattr` of another unchanged. -/
theorem getattrM_setattrM_ne (m : Module) (k k2 : String) (v : YValue) (h : k2 ≠ k) :
    getattrM (setattrM m k2 v) k = getattrM m k := by
  have hks : ¬(k = k2) := fun hh => h hh.symm
  by_cases h1 : k2 = M_MODULE_NUMBER
  · subst h1
    simp only [M_MODULE_NUMBER, M_SVN_VERSION, M_VARIABLE_REVISION, M_SHOW_WINDOW,
      M_NOTES, M_BATCH_STATE, M_ENABLED, M_WANTS_PAUSE] at hks
    simp [getattrM, setattrM, hks, M_MODULE_NUMBER, M_SVN_VERSION, M_VARIABLE_REVISION,
      M_SHOW_WINDOW, M_NOTES, M_BATCH_STATE, M_ENABLED, M_WANTS_PAUSE]
  by_cases h2 : k2 = M_SVN_VERSION
  · subst h2
    simp only [M_MODULE_NUMBER, M_SVN_VERSION, M_VARIABLE_REVISION, M_SHOW_WINDOW,
      M_NOTES, M_BATCH_STATE, M_ENABLED, M_WANTS_PAUSE] at hks
    simp [getattrM, setattrM, hks, M_MODULE_NUMBER, M_SVN_VERSION, M_VARIABLE_REVISION,
      M_SHOW_WINDOW, M_NOTES, M_BATCH_STATE, M_ENABLED, M_WANTS_PAUSE]
  by_cases h3 : k2 = M_VARIABLE_REVISION
  · subst h3
    simp only [M_MODULE_NUMBER, M_SVN_VERSION, M_VARIABLE_REVISION, M_SHOW_WINDOW,
      M_NOTES, M_BATCH_STATE, M_ENABLED, M_WANTS_PAUSE] at hks
    simp [getattrM, setattrM, hks, M_MODULE_NUMBER, M_SVN_VERSION, M_VARIABLE_REVISION,
      M_SHOW_WINDOW, M_NOTES, M_BATCH_STATE, M_ENABLED, M_WANTS_PAUSE]
  by_cases h4 : k2 = M_SHOW_WINDOW
  · subst h4
    simp only [M_MODULE_NUMBER, M_SVN_VERSION, M_VARIABLE_REVISION, M_SHOW_WINDOW,
      M_NOTES, M_BATCH_STATE, M_ENABLED, M_WANTS_PAUSE] at hks
    simp [getattrM, setattrM, hks, M_MODULE_NUMBER, M_SVN_VERSION, M_VARIABLE_REVISION,
      M_SHOW_WINDOW, M_NOTES, M_BATCH_STATE, M_ENABLED, M_WANTS_PAUSE]
  by_cases h5 : k2 = M_NOTES
  · subst h5
    simp only [M_MODULE_NUMBER, M_SVN_VERSION, M_VARIABLE_REVISION, M_SHOW_WINDOW,
      M_NOTES, M_BATCH_STATE, M_ENABLED, M_WANTS_PAUSE] at hks
    simp [getattrM, setattrM, hks, M_MODULE_NUMBER, M_SVN_VERSION, M_VARIABLE_REVISION,
      M_SHOW_WINDOW, M_NOTES, M_BATCH_STATE, M_ENABLED, M_WANTS_PAUSE]
  by_cases h6 : k2 = M_BATCH_STATE
  · subst h6
    simp only [M_MODULE_NUMBER, M_SVN_VERSION, M_VARIABLE_REVISION, M_SHOW_WINDOW,
      M_NOTES, M_BATCH_STATE, M_ENABLED, M_WANTS_PAUSE] at hks
    simp [getattrM, setattrM, hks, M_MODULE_NUMBER, M_SVN_VERSION, M_VARIABLE_REVISION,
      M_SHOW_WINDOW, M_NOTES, M_BATCH_STATE, M_ENABLED, M_WANTS_PAUSE]
  by_cases h7 : k2 = M_ENABLED
  · subst h7
    simp only [M_MODULE_NUMBER, M_SVN_VERSION, M_VARIABLE_REVISION, M_SHOW_WINDOW,
      M_NOTES, M_BATCH_STATE, M_ENABLED, M_WANTS_PAUSE] at hks
    simp [getattrM, setattrM, hks, M_MODULE_NUMBER, M_SVN_VERSION, M_VARIABLE_REVISION,
      M_SHOW_WINDOW, M_NOTES, M_BATCH_STATE, M_ENABLED, M_WANTS_PAUSE]
  by_cases h8 : k2 = M_WANTS_PAUSE
  · subst h8
    simp only [M_MODULE_NUMBER, M_SVN_VERSION, M_VARIABLE_REVISION, M_SHOW_WINDOW,
      M_NOTES, M_BATCH_STATE, M_ENABLED, M_WANTS_PAUSE] at hks
    simp [getattrM, setattrM, hks, M_MODULE_NUMBER, M_SVN_VERSION, M_VARIABLE_REVISION,
      M_SHOW_WINDOW, M_NOTES, M_BATCH_STATE, M_ENABLED, M_WANTS_PAUSE]
  simp [getattrM, setattrM, h1, h2, h3, h4, h5, h6, h7, h8,
    dictLookup_dictSet_ne m.extra_attrs k k2 v h]

/-- A fold of `setattr` over pairs whose keys avoid `k` does not change
`getattr k`. -/
theorem foldl_setattrM_getattr_notin (rest : List (String × YValue)) (m : Module)
    (k : String) (hk : ∀ p ∈ rest, p.1 ≠ k) :
    getattrM (rest.foldl (fun acc p => setattrM acc p.1 p.2) m) k = getattrM m k := by
  induction rest generalizing m with
  | nil => rfl
  | cons p rest ih =>
    simp only [List.foldl_cons]
    rw [ih _ (fun q hq => hk q (List.mem_cons_of_mem _ hq))]
    exact getattrM_setattrM_ne m k p.1 p.2 (hk p (List.mem_cons_self _ _))

/-- After folding `setattr` over a mapping with distinct keys, every entry is
readable back via `getattr`. -/
theorem foldl_setattrM_getattr (pa : List (String × YValue)) (m : Module)
    (hnd : (pa.map Prod.fst).Nodup) :
    ∀ kv ∈ pa, getattrM (pa.foldl (fun acc p => setattrM acc p.1 p.2) m) kv.1 = some kv.2 := by
  induction pa generalizing m with
  | nil => simp
  | cons p rest ih =>
    intro kv hkv
    simp only [List.map_cons, List.nodup_cons, List.mem_map] at hnd
    rcases List.mem_cons.mp hkv with rfl | hkv
    · simp only [List.foldl_cons]
      rw [foldl_setattrM_getattr_notin rest _ kv.1
        (fun q hq hq1 => hnd.1 ⟨q, hq, hq1⟩)]
      exact getattrM_setattrM_self m kv.1 kv.2
    · exact ih _ hnd.2 kv hkv

/-- Settings hydration only modifies the settings list; every attribute is
unchanged. -/
theorem getattrM_set_settings (m m2 : Module) (values : List YValue) (r : YValue)
    (nm k : String) (h : set_settings_from_values m values r nm = .ok m2) :
    getattrM m2 k = getattrM m k := by
  unfold set_settings_from_values at h
  split at h
  · exact absurd h (by simp)
  · split at h
    · injection h with h2
      subst h2
      rfl
    · exact absurd h (by simp)

/-- Flattening the settings list that `save_yaml` wrote yields exactly the
written values, in order. -/
theorem flattenList_saved (l : List Setting) :
    flattenList (l.map fun s => YValue.dict [(s.text, .s s.unicode_value)]) =
      .ok (l.map fun s => YValue.s s.unicode_value) := by
  induction l with
  | nil => rfl
  | cons s rest ih => simp [flattenList, settingValues, ih]

/-- The values `save_yaml` wrote are all strings. -/
theorem valuesAsStrings_saved (l : List Setting) :
    valuesAsStrings (l.map fun s => YValue.s s.unicode_value) =
      some (l.map Setting.unicode_value) := by
  induction l with
  | nil => rfl
  | cons s rest ih => simp [valuesAsStrings, ih]

/-- Hydrating a fresh settings list that carries the same labels with the
saved values restores the saved settings exactly. -/
theorem zipWith_settings (a : List Setting) :
    ∀ (b : List Setting), a.map Setting.text = b.map Setting.text →
      List.zipWith (fun s v => { text := s.text, unicode_value := v }) a
        (b.map Setting.unicode_value) = b := by
  induction a with
  | nil =>
    intro b h
    cases b with
    | nil => rfl
    | cons bh bt => simp at h
  | cons ah arest ih =>
    intro b h
    cases b with
    | nil => simp at h
    | cons bh bt =>
      simp only [List.map_cons, List.cons.injEq] at h
      simp [ih bt h.2, h.1]

/-- Loading back the record `save_yaml` wrote for module `m`, when the
registry returns a fresh instance `m0` whose settings carry the same labels:
the result is the fresh instance with the seven written attributes and the
settings restored from the file. -/
theorem loadOneModule_saved (inst : String → Except PyErr Module) (m m0 : Module)
    (hm0 : inst m.module_name = .ok m0)
    (htext : m0.settings.map Setting.text = m.settings.map Setting.text) :
    loadOneModule inst m.module_name (moduleInfoOf m) = .ok (rehydrate m m0) := by
  have hlen : m0.settings.length = m.settings.length := by
    simpa using congrArg List.length htext
  have hA : dictGet (moduleInfoOf m) M_PRIVATE_ATTRIBUTES =
      .ok (.dict (savedPrivateAttrs m)) := rfl
  have hC : dictGet (moduleInfoOf m) M_SETTINGS =
      .ok (.list (m.settings.map fun s => .dict [(s.text, .s s.unicode_value)])) := rfl
  have hB : (savedPrivateAttrs m).foldl (fun macc kv => setattrM macc kv.1 kv.2) m0 =
      { m0 with
        module_num := m.module_num
        svn_version := m.svn_version
        variable_revision_number := m.variable_revision_number
        show_window := m.show_window
        notes := m.notes
        enabled := m.enabled
        wants_pause := m.wants_pause } := rfl
  have hE : dictLookup (savedPrivateAttrs m) M_VARIABLE_REVISION =
      some m.variable_revision_number := rfl
  simp only [loadOneModule, hm0, hA, hC, hB, hE, flattenSettings, flattenList_saved,
    set_settings_from_values, valuesAsStrings_saved]
  rw [if_pos (by simp [hlen])]
  rw [zipWith_settings m0.settings m.settings htext]
  rfl

/-- The module loop on the blocks `save_yaml` wrote, when the registry
resolves each written type name to a fresh instance with equally labelled
settings: every record materializes, the accumulator grows by one module per
record, no log event is emitted, and each materialized module agrees with the
saved one on everything written. -/
theorem loadModulesLoop_saved (inst : String → Except PyErr Module) (strict : Bool)
    (fresh : Module → Module) (mods : List Module) :
    (∀ m ∈ mods, inst m.module_name = .ok (fresh m) ∧
      (fresh m).settings.map Setting.text = m.settings.map Setting.text) →
    ∀ (n : Nat) (acc : List Module) (logs : List LogEvent),
      loadModulesLoop inst strict
          (mods.map fun m => .dict [(m.module_name, moduleInfoOf m)]) n acc logs =
        (.ok (acc ++ mods.map fun m => rehydrate m (fresh m)), logs) := by
  induction mods with
  | nil =>
    intro _ n acc logs
    simp [loadModulesLoop]
  | cons m rest ih =>
    intro hreg n acc logs
    obtain ⟨hm0, htext⟩ := hreg m (List.mem_cons_self m rest)
    have hsplit : blockSplit (.dict [(m.module_name, moduleInfoOf m)]) =
        .ok (m.module_name, moduleInfoOf m) := by
      simp [blockSplit, dictLookup]
    have hone := loadOneModule_saved inst m (fresh m) hm0 htext
    have hrest := ih (fun q hq => hreg q (List.mem_cons_of_mem _ hq)) (n + 1)
      (acc ++ [rehydrate m (fresh m)]) logs
    simp only [List.map_cons, loadModulesLoop, hsplit, hone]
    rw [hrest]
    simp

/-- Each rehydrated module agrees with the saved one on everything written,
provided the fresh instance has the right type name. -/
theorem forall₂_rehydrate (fresh : Module → Module) (mods : List Module)
    (h : ∀ m ∈ mods, (fresh m).module_name = m.module_name) :
    List.Forall₂ moduleAgrees (mods.map fun m => rehydrate m (fresh m)) mods := by
  induction mods with
  | nil => exact List.Forall₂.nil
  | cons m rest ih =>
    exact List.Forall₂.cons
      ⟨h m (List.mem_cons_self m rest), rfl, rfl, rfl, rfl, rfl, rfl, rfl, rfl⟩
      (ih fun q hq => h q (List.mem_cons_of_mem _ hq))

/-- Under `raise_on_error`, a failing record after a prefix of fully
successful records aborts the loop with that record's exception. -/
theorem loadModulesLoop_strict_abort (inst : String → Except PyErr Module)
    (bs2 : List YValue) (blk : YValue) (name : String) (info : YValue) (e : PyErr)
    (hb : blockSplit blk = .ok (name, info))
    (hf : loadOneModule inst name info = .error e) :
    ∀ (bs1 : List YValue),
      (∀ b ∈ bs1, ∃ nm inf m, blockSplit b = .ok (nm, inf) ∧
        loadOneModule inst nm inf = .ok m) →
      ∀ (n : Nat) (acc : List Module) (logs : List LogEvent), ∃ logs2,
        loadModulesLoop inst true (bs1 ++ blk :: bs2) n acc logs = (.error e, logs2) := by
  intro bs1
  induction bs1 with
  | nil =>
    intro _ n acc logs
    refine ⟨logs ++ [.warnFailedToLoadModule name n], ?_⟩
    simp [loadModulesLoop, hb, hf]
  | cons b rest ih =>
    intro hpre n acc logs
    obtain ⟨nm, inf, m, hsb, hsm⟩ := hpre b (List.mem_cons_self _ _)
    obtain ⟨logs2, hrec⟩ :=
      ih (fun q hq => hpre q (List.mem_cons_of_mem _ hq)) (n + 1) (acc ++ [m]) logs
    refine ⟨logs2, ?_⟩
    simpa [loadModulesLoop, hsb, hsm] using hrec

/-- Inversion of a successful `loadOneModule`: every entry of the record's
private-attributes mapping (when its keys are distinct) is readable back from
the materialized module with `getattr`. -/
theorem loadOneModule_getattr (inst : String → Except PyErr Module) (name : String)
    (info : YValue) (pa : List (String × YValue)) (m2 : Module)
    (hinfo : dictGet info M_PRIVATE_ATTRIBUTES = .ok (.dict pa))
    (hnd : (pa.map Prod.fst).Nodup)
    (hok : loadOneModule inst name info = .ok m2) :
    ∀ kv ∈ pa, getattrM m2 kv.1 = some kv.2 := by
  intro kv hkv
  unfold loadOneModule at hok
  split at hok
  · exact absurd hok (by simp)
  · rw [hinfo] at hok
    simp only [] at hok
    split at hok
    · exact absurd hok (by simp)
    · split at hok
      · exact absurd hok (by simp)
      · split at hok
        · exact absurd hok (by simp)
        · rw [getattrM_set_settings _ _ _ _ _ _ hok]
          exact foldl_setattrM_getattr pa _ hnd kv hkv

/-! ## Claim theorems -/

/-- C1: for every document whose header format version is strictly greater
than the reader's maximum supported version (5), `load_yaml` fails with the
version-gate `PipelineLoadException` carrying both version numbers, for every
registry and strictness flag — so before any module is instantiated — and
regardless of the validity of the rest of the document. -/
theorem c1_version_gate (cpver : String) (hl strict : Bool)
    (inst : String → Except PyErr Module) (doc header pv : YValue) (v : Int)
    (h1 : dictGet doc H_HEADER = .ok header)
    (h2 : dictGet header H_PIPELINE_VERSION = .ok pv)
    (h3 : pyInt pv = .ok v)
    (h4 : v > CURRENT_PIPELINE_VERSION) :
    (load_yaml cpver hl inst doc strict).1 =
      .error (.pipelineVersionTooNew v CURRENT_PIPELINE_VERSION) := by
  obtain ⟨kvs, rfl⟩ := dictGet_ok_dict doc H_HEADER header h1
  have hli : loadInner cpver hl inst (.dict kvs) strict =
      (.error (.tooNew v CURRENT_PIPELINE_VERSION), []) := by
    simp only [loadInner, h1, h2, h3]
    rw [if_pos h4]
  rw [load_yaml_dict, hli]

/-- C1 witness: a concrete document declaring format version 6 is rejected
with both version numbers, even though its header has nothing else. -/
theorem c1_version_gate_witness :
    (load_yaml "3.1.9" false (fun n => .error (.instantiationError n))
      (.dict [(H_HEADER, .dict [(H_PIPELINE_VERSION, .i 6)])]) false).1 =
      .error (.pipelineVersionTooNew 6 5) :=
  c1_version_gate "3.1.9" false false (fun n => .error (.instantiationError n))
    (.dict [(H_HEADER, .dict [(H_PIPELINE_VERSION, .i 6)])])
    (.dict [(H_PIPELINE_VERSION, .i 6)]) (.i 6) 6 rfl rfl rfl (by decide)

/-- C4 counterexample: a document that is valid except that its header lacks
the `Volumetric` key does not load successfully with a false default; the
load fails with the `PipelineLoadException` wrapping `KeyError('Volumetric')`
(line 144 reads the key unconditionally and lines 205-208 wrap the error). -/
theorem c4_missing_dimensionality_counterexample :
    (load_yaml "3.1.9" false (fun n => .error (.instantiationError n))
      (.dict [(COOKIE_KEY, .s COOKIE_VALUE),
        (H_HEADER, .dict [(H_CP_VERSION, .s "3.1.9"), (H_PIPELINE_VERSION, .i 5),
          (H_MODULE_COUNT, .i 0)]),
        (H_MODULE_LIST, .list [])]) false).1 =
      .error (.pipelineKeyError H_PIPELINE_DIMENSION) := rfl

/-- C4 amended: for every document whose header lacks the dimensionality key
(and whose earlier header reads succeed), `load_yaml` fails with
`PipelineLoadException` naming `Volumetric`; the dimensionality does not
default to false. -/
theorem c4_missing_dimensionality_amended (cpver : String) (hl strict : Bool)
    (inst : String → Except PyErr Module) (doc header pv cpv : YValue) (v : Int)
    (sv rv : StrictVer)
    (h1 : dictGet doc H_HEADER = .ok header)
    (h2 : dictGet header H_PIPELINE_VERSION = .ok pv)
    (h3 : pyInt pv = .ok v)
    (h4 : v ≤ CURRENT_PIPELINE_VERSION)
    (h5 : dictGet header H_CP_VERSION = .ok cpv)
    (h6 : strictVersionOf cpv = .ok sv)
    (h7 : parseStrictVersion cpver = some rv)
    (h8 : dictGet header H_PIPELINE_DIMENSION = .error (.keyError H_PIPELINE_DIMENSION)) :
    (load_yaml cpver hl inst doc strict).1 =
      .error (.pipelineKeyError H_PIPELINE_DIMENSION) := by
  obtain ⟨kvs, rfl⟩ := dictGet_ok_dict doc H_HEADER header h1
  have hli : loadInner cpver hl inst (.dict kvs) strict =
      (.error (.py (.keyError H_PIPELINE_DIMENSION)),
        if sv.lt rv && !hl then [.warnOldProducerVersion] else []) := by
    simp only [loadInner, h1, h2, h3, h5, h6, h7, h8]
    rw [if_neg (not_lt.mpr h4)]
  rw [load_yaml_dict, hli]
  rfl

/-- C4 amended witness: the concrete no-`Volumetric` document fails naming
`Volumetric`, through the amended theorem. -/
theorem c4_missing_dimensionality_amended_witness :
    (load_yaml "3.1.9" false (fun n => .error (.instantiationError n))
      (.dict [(H_HEADER, .dict [(H_CP_VERSION, .s "3.1.9"), (H_PIPELINE_VERSION, .i 5),
          (H_MODULE_COUNT, .i 0)]),
        (H_MODULE_LIST, .list [])]) false).1 =
      .error (.pipelineKeyError H_PIPELINE_DIMENSION) :=
  c4_missing_dimensionality_amended "3.1.9" false false
    (fun n => .error (.instantiationError n))
    (.dict [(H_HEADER, .dict [(H_CP_VERSION, .s "3.1.9"), (H_PIPELINE_VERSION, .i 5),
        (H_MODULE_COUNT, .i 0)]),
      (H_MODULE_LIST, .list [])])
    (.dict [(H_CP_VERSION, .s "3.1.9"), (H_PIPELINE_VERSION, .i 5), (H_MODULE_COUNT, .i 0)])
    (.i 5) (.s "3.1.9") 5 ⟨3, 1, 9, none⟩ ⟨3, 1, 9, none⟩
    rfl rfl rfl (by decide) rfl rfl rfl rfl

/-- C8: for every document missing a required header key, `load_yaml` fails
with a `PipelineLoadException` naming the missing key — one conjunct per
required header key in the order the decoder reads them (`PipelineVersion`,
`CellProfilerVersion`, `Volumetric`, `ModuleCount`), each assuming the earlier
reads succeed. -/
theorem c8_missing_header_key (cpver : String) (hl strict : Bool)
    (inst : String → Except PyErr Module) (doc header : YValue)
    (h1 : dictGet doc H_HEADER = .ok header) :
    (dictGet header H_PIPELINE_VERSION = .error (.keyError H_PIPELINE_VERSION) →
      (load_yaml cpver hl inst doc strict).1 =
        .error (.pipelineKeyError H_PIPELINE_VERSION)) ∧
    (∀ pv v, dictGet header H_PIPELINE_VERSION = .ok pv → pyInt pv = .ok v →
      v ≤ CURRENT_PIPELINE_VERSION →
      dictGet header H_CP_VERSION = .error (.keyError H_CP_VERSION) →
      (load_yaml cpver hl inst doc strict).1 =
        .error (.pipelineKeyError H_CP_VERSION)) ∧
    (∀ pv v cpv sv rv, dictGet header H_PIPELINE_VERSION = .ok pv → pyInt pv = .ok v →
      v ≤ CURRENT_PIPELINE_VERSION → dictGet header H_CP_VERSION = .ok cpv →
      strictVersionOf cpv = .ok sv → parseStrictVersion cpver = some rv →
      dictGet header H_PIPELINE_DIMENSION = .error (.keyError H_PIPELINE_DIMENSION) →
      (load_yaml cpver hl inst doc strict).1 =
        .error (.pipelineKeyError H_PIPELINE_DIMENSION)) ∧
    (∀ pv v cpv sv rv vol, dictGet header H_PIPELINE_VERSION = .ok pv → pyInt pv = .ok v →
      v ≤ CURRENT_PIPELINE_VERSION → dictGet header H_CP_VERSION = .ok cpv →
      strictVersionOf cpv = .ok sv → parseStrictVersion cpver = some rv →
      dictGet header H_PIPELINE_DIMENSION = .ok vol →
      dictGet header H_MODULE_COUNT = .error (.keyError H_MODULE_COUNT) →
      (load_yaml cpver hl inst doc strict).1 =
        .error (.pipelineKeyError H_MODULE_COUNT)) := by
  obtain ⟨kvs, rfl⟩ := dictGet_ok_dict doc H_HEADER header h1
  refine ⟨?_, ?_, ?_, ?_⟩
  · intro h2
    have hli : loadInner cpver hl inst (.dict kvs) strict =
        (.error (.py (.keyError H_PIPELINE_VERSION)), []) := by
      simp only [loadInner, h1, h2]
    rw [load_yaml_dict, hli]
    rfl
  · intro pv v h2 h3 h4 h5
    have hli : loadInner cpver hl inst (.dict kvs) strict =
        (.error (.py (.keyError H_CP_VERSION)), []) := by
      simp only [loadInner, h1, h2, h3, h5]
      rw [if_neg (not_lt.mpr h4)]
    rw [load_yaml_dict, hli]
    rfl
  · intro pv v cpv sv rv h2 h3 h4 h5 h6 h7 h8
    have hli : loadInner cpver hl inst (.dict kvs) strict =
        (.error (.py (.keyError H_PIPELINE_DIMENSION)),
          if sv.lt rv && !hl then [.warnOldProducerVersion] else []) := by
      simp only [loadInner, h1, h2, h3, h5, h6, h7, h8]
      rw [if_neg (not_lt.mpr h4)]
    rw [load_yaml_dict, hli]
    rfl
  · intro pv v cpv sv rv vol h2 h3 h4 h5 h6 h7 h8 h9
    have hli : loadInner cpver hl inst (.dict kvs) strict =
        (.error (.py (.keyError H_MODULE_COUNT)),
          if sv.lt rv && !hl then [.warnOldProducerVersion] else []) := by
      simp only [loadInner, h1, h2, h3, h5, h6, h7, h8, h9]
      rw [if_neg (not_lt.mpr h4)]
    rw [load_yaml_dict, hli]
    rfl

/-- C8 witness: a concrete document whose header lacks `ModuleCount` fails
naming `ModuleCount`. -/
theorem c8_missing_header_key_witness :
    (load_yaml "3.1.9" false (fun n => .error (.instantiationError n))
      (.dict [(H_HEADER, .dict [(H_CP_VERSION, .s "3.1.9"), (H_PIPELINE_VERSION, .i 5),
          (H_PIPELINE_DIMENSION, .b false)]),
        (H_MODULE_LIST, .list [])]) false).1 =
      .error (.pipelineKeyError H_MODULE_COUNT) :=
  (c8_missing_header_key "3.1.9" false false (fun n => .error (.instantiationError n))
    (.dict [(H_HEADER, .dict [(H_CP_VERSION, .s "3.1.9"), (H_PIPELINE_VERSION, .i 5),
        (H_PIPELINE_DIMENSION, .b false)]),
      (H_MODULE_LIST, .list [])])
    (.dict [(H_CP_VERSION, .s "3.1.9"), (H_PIPELINE_VERSION, .i 5),
      (H_PIPELINE_DIMENSION, .b false)]) rfl).2.2.2
    (.i 5) 5 (.s "3.1.9") ⟨3, 1, 9, none⟩ ⟨3, 1, 9, none⟩ (.b false)
    rfl rfl (by decide) rfl rfl rfl rfl rfl

/-- C2 counterexample: saving and loading a single module whose opaque
`batch_state` blob is `"BLOB"` yields a module whose blob is the fresh
instance's empty one — the private attributes do not all round trip, because
the `attributes` tuple of lines 69-70 omits `batch_state`. -/
theorem c2_roundtrip_counterexample :
    (load_yaml "3.1.9" false c2inst (save_yaml "3.1.9" [c2mod] none false) false).1 =
      .ok ([rehydrate c2mod c2fresh], .b false) ∧
    c2mod.batch_state = .s "BLOB" ∧
    (rehydrate c2mod c2fresh).batch_state = .s "" ∧
    (rehydrate c2mod c2fresh).batch_state ≠ c2mod.batch_state :=
  ⟨rfl, rfl, rfl, by simp [rehydrate, c2fresh, c2mod]⟩

/-- C2 amended: for every module sequence whose type names the registry
resolves to fresh instances with equally labelled settings, saving (no subset
filter) and loading the result yields, in order, one module per saved module
that agrees on the type name, the full ordered settings list — duplicate
labels preserved as distinct entries in order — and the seven written private
attributes; the opaque `batch_state` blob and dynamic extra attributes are
the fresh instance's, not the saved module's. -/
theorem c2_roundtrip_amended (cpver : String) (hl strict vol : Bool)
    (inst : String → Except PyErr Module) (fresh : Module → Module)
    (mods : List Module) (rv : StrictVer)
    (hcp : parseStrictVersion cpver = some rv)
    (hreg : ∀ m ∈ mods, inst m.module_name = .ok (fresh m) ∧
      (fresh m).module_name = m.module_name ∧
      (fresh m).settings.map Setting.text = m.settings.map Setting.text) :
    (load_yaml cpver hl inst (save_yaml cpver mods none vol) strict).1 =
      .ok (mods.map fun m => rehydrate m (fresh m), .b vol) ∧
    List.Forall₂ moduleAgrees (mods.map fun m => rehydrate m (fresh m)) mods := by
  have hfilter : mods.filter (keepModule none) = mods :=
    List.filter_eq_self.mpr fun a _ => rfl
  have h6 : strictVersionOf (.s cpver) = .ok rv := by
    simp [strictVersionOf, hcp]
  have h10 : dictGet (save_yaml cpver mods none vol) H_MODULE_LIST =
      .ok (.list (mods.map fun m => .dict [(m.module_name, moduleInfoOf m)])) := by
    rw [show dictGet (save_yaml cpver mods none vol) H_MODULE_LIST =
      .ok (.list ((mods.filter (keepModule none)).map
        fun m => .dict [(m.module_name, moduleInfoOf m)])) from rfl, hfilter]
  have hloop := loadModulesLoop_saved inst strict fresh mods
    (fun m hm => ⟨(hreg m hm).1, (hreg m hm).2.2⟩) 1 [] []
  have hcount : countAdvisory (.i mods.length)
      (mods.map fun m => rehydrate m (fresh m)).length = .ok [] := by
    simp [countAdvisory]
  have hli := loadInner_eq cpver hl inst (save_yaml cpver mods none vol)
    _ _ _ _ _ _ strict _ rv rv _ rfl rfl rfl le_rfl rfl h6 hcp rfl rfl h10 rfl
  rw [hloop] at hli
  simp only [List.nil_append] at hli
  rw [hcount] at hli
  refine ⟨?_, forall₂_rehydrate fresh mods fun m hm => (hreg m hm).2.1⟩
  rw [show save_yaml cpver mods none vol = .dict [
      (COOKIE_KEY, .s COOKIE_VALUE),
      (H_HEADER, .dict [(H_CP_VERSION, .s cpver),
        (H_PIPELINE_VERSION, .i CURRENT_PIPELINE_VERSION),
        (H_PIPELINE_DIMENSION, .b vol), (H_MODULE_COUNT, .i mods.length)]),
      (H_MODULE_LIST, .list (mods.map fun m => .dict [(m.module_name, moduleInfoOf m)]))]
    by rw [show save_yaml cpver mods none vol = .dict [
      (COOKIE_KEY, .s COOKIE_VALUE),
      (H_HEADER, .dict [(H_CP_VERSION, .s cpver),
        (H_PIPELINE_VERSION, .i CURRENT_PIPELINE_VERSION),
        (H_PIPELINE_DIMENSION, .b vol), (H_MODULE_COUNT, .i mods.length)]),
      (H_MODULE_LIST, .list ((mods.filter (keepModule none)).map
        fun m => .dict [(m.module_name, moduleInfoOf m)]))] from rfl, hfilter]] at hli ⊢
  rw [load_yaml_dict, hli]

/-- C2 amended witness: the concrete one-module round trip agrees on the type
name, both duplicate-label settings in order, and the seven written private
attributes. -/
theorem c2_roundtrip_amended_witness :
    (load_yaml "3.1.9" false c2inst (save_yaml "3.1.9" [c2mod] none false) false).1 =
      .ok ([c2mod].map fun m => rehydrate m ((fun _ => c2fresh) m), .b false) ∧
    List.Forall₂ moduleAgrees ([c2mod].map fun m => rehydrate m ((fun _ => c2fresh) m))
      [c2mod] :=
  c2_roundtrip_amended "3.1.9" false false false c2inst (fun _ => c2fresh) [c2mod]
    ⟨3, 1, 9, none⟩ rfl
    (by
      intro m hm
      rw [List.mem_singleton] at hm
      subst hm
      exact ⟨rfl, rfl, rfl⟩)

/-- C5 counterexample: saving two modules with a subset filter keeping only
module number 1 writes a header `ModuleCount` of 2 (line 64 uses the full
input length) while only one module record is written — the declared count
differs from the number of records written. -/
theorem c5_declared_count_counterexample :
    savedDeclaredCount (save_yaml "3.1.9" [c5modP, c5modQ] (some [1]) false) =
      some (.i 2) ∧
    (savedModuleBlocks (save_yaml "3.1.9" [c5modP, c5modQ] (some [1]) false)).map
      List.length = some 1 ∧
    (2 : Int) ≠ (1 : Int) :=
  ⟨rfl, rfl, by decide⟩

/-- C5 amended: the declared module count written by `save_yaml` equals the
length of the full input module list, and the number of module records
actually written equals the number of modules passing the subset filter; the
two coincide when the filter drops nothing — in particular, with no filter
the record count equals the declared count. -/
theorem c5_declared_count_amended (cpver : String) (mods : List Module)
    (mts : Option (List Int)) (vol : Bool) :
    savedDeclaredCount (save_yaml cpver mods mts vol) = some (.i mods.length) ∧
    (savedModuleBlocks (save_yaml cpver mods mts vol)).map List.length =
      some ((mods.filter (keepModule mts)).length) ∧
    (savedModuleBlocks (save_yaml cpver mods none vol)).map List.length =
      some mods.length := by
  have h0 : mods.filter (keepModule none) = mods :=
    List.filter_eq_self.mpr fun a _ => rfl
  refine ⟨rfl, ?_, ?_⟩
  · rw [show savedModuleBlocks (save_yaml cpver mods mts vol) =
      some ((mods.filter (keepModule mts)).map
        fun m => .dict [(m.module_name, moduleInfoOf m)]) from rfl]
    simp
  · rw [show savedModuleBlocks (save_yaml cpver mods none vol) =
      some ((mods.filter (keepModule none)).map
        fun m => .dict [(m.module_name, moduleInfoOf m)]) from rfl, h0]
    simp

/-- C9 (code-bug evidence): the private-attributes block `save_yaml` writes
for any module contains no `batch_state` entry at all — the opaque state blob
is neither serialized to a byte-safe form nor embedded (the `attributes`
tuple of lines 69-70 omits `M_BATCH_STATE`, defined on line 43 and never
used), so the blob cannot round trip. -/
theorem c9_batch_state_not_saved (m : Module) :
    dictLookup (savedPrivateAttrs m) M_BATCH_STATE = none ∧
    dictGet (moduleInfoOf m) M_PRIVATE_ATTRIBUTES =
      .ok (.dict (savedPrivateAttrs m)) ∧
    (savedPrivateAttrs m).map Prod.fst =
      [M_MODULE_NUMBER, M_SVN_VERSION, M_VARIABLE_REVISION, M_SHOW_WINDOW,
       M_NOTES, M_ENABLED, M_WANTS_PAUSE] :=
  ⟨rfl, rfl, rfl⟩

/-- C7: under strict loading, the first per-module failure — after any prefix
of fully successful records — aborts the entire load immediately: no modules
are returned and the per-module exception is propagated to the caller as the
document load failure (wrapped in `PipelineLoadException` exactly when it is
a `KeyError`, per lines 193-196 and 205-208). -/
theorem c7_strict_abort (cpver : String) (hl : Bool)
    (inst : String → Except PyErr Module)
    (doc header pv cpv vol mc ml : YValue) (v : Int) (sv rv : StrictVer)
    (bs1 bs2 : List YValue) (blk : YValue) (name : String) (info : YValue)
    (e : PyErr)
    (h1 : dictGet doc H_HEADER = .ok header)
    (h2 : dictGet header H_PIPELINE_VERSION = .ok pv)
    (h3 : pyInt pv = .ok v)
    (h4 : v ≤ CURRENT_PIPELINE_VERSION)
    (h5 : dictGet header H_CP_VERSION = .ok cpv)
    (h6 : strictVersionOf cpv = .ok sv)
    (h7 : parseStrictVersion cpver = some rv)
    (h8 : dictGet header H_PIPELINE_DIMENSION = .ok vol)
    (h9 : dictGet header H_MODULE_COUNT = .ok mc)
    (h10 : dictGet doc H_MODULE_LIST = .ok ml)
    (h11 : iterBlocks ml = .ok (bs1 ++ blk :: bs2))
    (hpre : ∀ b ∈ bs1, ∃ nm inf m, blockSplit b = .ok (nm, inf) ∧
      loadOneModule inst nm inf = .ok m)
    (hb : blockSplit blk = .ok (name, info))
    (hf : loadOneModule inst name info = .error e) :
    (load_yaml cpver hl inst doc true).1 = .error (promote e) := by
  obtain ⟨kvs, rfl⟩ := dictGet_ok_dict doc H_HEADER header h1
  obtain ⟨logs2, hloop⟩ :=
    loadModulesLoop_strict_abort inst bs2 blk name info e hb hf bs1 hpre 1 [] []
  have hli := loadInner_eq cpver hl inst (.dict kvs) header pv cpv vol mc ml true
    v sv rv (bs1 ++ blk :: bs2) h1 h2 h3 h4 h5 h6 h7 h8 h9 h10 h11
  rw [hloop] at hli
  rw [load_yaml_dict, hli]

/-- C7 witness: a concrete strict load whose single record has an
unresolvable type name returns no modules and propagates the registry's
exception. -/
theorem c7_strict_abort_witness :
    (load_yaml "3.1.9" false (fun n => .error (.instantiationError n))
      (.dict [(COOKIE_KEY, .s COOKIE_VALUE),
        (H_HEADER, .dict [(H_CP_VERSION, .s "3.1.9"), (H_PIPELINE_VERSION, .i 5),
          (H_PIPELINE_DIMENSION, .b false), (H_MODULE_COUNT, .i 1)]),
        (H_MODULE_LIST, .list [.dict [("BadModule", .dict [])]])]) true).1 =
      .error (.uncaught (.instantiationError "BadModule")) :=
  c7_strict_abort "3.1.9" false (fun n => .error (.instantiationError n))
    (.dict [(COOKIE_KEY, .s COOKIE_VALUE),
      (H_HEADER, .dict [(H_CP_VERSION, .s "3.1.9"), (H_PIPELINE_VERSION, .i 5),
        (H_PIPELINE_DIMENSION, .b false), (H_MODULE_COUNT, .i 1)]),
      (H_MODULE_LIST, .list [.dict [("BadModule", .dict [])]])])
    (.dict [(H_CP_VERSION, .s "3.1.9"), (H_PIPELINE_VERSION, .i 5),
      (H_PIPELINE_DIMENSION, .b false), (H_MODULE_COUNT, .i 1)])
    (.i 5) (.s "3.1.9") (.b false) (.i 1)
    (.list [.dict [("BadModule", .dict [])]]) 5 ⟨3, 1, 9, none⟩ ⟨3, 1, 9, none⟩
    [] [] (.dict [("BadModule", .dict [])]) "BadModule" (.dict [])
    (.instantiationError "BadModule")
    rfl rfl rfl (by decide) rfl rfl rfl rfl rfl rfl rfl
    (fun b hb => absurd hb (List.not_mem_nil b)) rfl rfl

/-- C3: for every document declaring 3 modules whose 2nd record has a type
name the registry cannot resolve (records 1 and 3 materializing fully), a
non-strict load succeeds with exactly the two modules from file positions 1
and 3, in that order; the log carries exactly one per-module failure event —
naming the 2nd record's type name and its position 2 in the file — and
exactly one count-mismatch advisory stating that 1 module was dropped. -/
theorem c3_mixed_validity (cpver : String) (hl : Bool)
    (inst : String → Except PyErr Module)
    (doc header pv cpv vol ml : YValue) (v : Int) (sv rv : StrictVer)
    (b1 b2 b3 : YValue) (n1 n2 n3 : String) (i1 i2 i3 : YValue)
    (m1 m3 : Module) (e2 : PyErr)
    (h1 : dictGet doc H_HEADER = .ok header)
    (h2 : dictGet header H_PIPELINE_VERSION = .ok pv)
    (h3 : pyInt pv = .ok v)
    (h4 : v ≤ CURRENT_PIPELINE_VERSION)
    (h5 : dictGet header H_CP_VERSION = .ok cpv)
    (h6 : strictVersionOf cpv = .ok sv)
    (h7 : parseStrictVersion cpver = some rv)
    (h8 : dictGet header H_PIPELINE_DIMENSION = .ok vol)
    (h9 : dictGet header H_MODULE_COUNT = .ok (.i 3))
    (h10 : dictGet doc H_MODULE_LIST = .ok ml)
    (h11 : iterBlocks ml = .ok [b1, b2, b3])
    (hb1 : blockSplit b1 = .ok (n1, i1))
    (hm1 : loadOneModule inst n1 i1 = .ok m1)
    (hb2 : blockSplit b2 = .ok (n2, i2))
    (hm2 : inst n2 = .error e2)
    (hb3 : blockSplit b3 = .ok (n3, i3))
    (hm3 : loadOneModule inst n3 i3 = .ok m3) :
    (load_yaml cpver hl inst doc false).1 = .ok ([m1, m3], vol) ∧
    (load_yaml cpver hl inst doc false).2.filter isModuleFailureLog =
      [.warnFailedToLoadModule n2 2] ∧
    (load_yaml cpver hl inst doc false).2.filter isCountMismatchLog =
      [.warnModulesNotImported 1] := by
  obtain ⟨kvs, rfl⟩ := dictGet_ok_dict doc H_HEADER header h1
  have hm2f : loadOneModule inst n2 i2 = .error e2 := by
    simp only [loadOneModule, hm2]
  have hloop : loadModulesLoop inst false [b1, b2, b3] 1 [] [] =
      (.ok [m1, m3], [.warnFailedToLoadModule n2 2, .logException e2,
        .warnContinuing]) := by
    simp [loadModulesLoop, hb1, hm1, hb2, hm2f, hb3, hm3]
  have hcount : countAdvisory (.i 3) ([m1, m3] : List Module).length =
      .ok [.warnModulesNotImported 1] := by
    simp [countAdvisory]
  have hli := loadInner_eq cpver hl inst (.dict kvs) header pv cpv vol (.i 3) ml
    false v sv rv [b1, b2, b3] h1 h2 h3 h4 h5 h6 h7 h8 h9 h10 h11
  simp only [hloop, hcount] at hli
  refine ⟨?_, ?_, ?_⟩
  · rw [load_yaml_dict, hli]
  · rw [load_yaml_dict, hli]
    simp [apply_ite (List.filter isModuleFailureLog), List.filter_append,
      isModuleFailureLog]
  · rw [load_yaml_dict, hli]
    simp [apply_ite (List.filter isCountMismatchLog), List.filter_append,
      isCountMismatchLog]

/-- C3 witness: the concrete good/unresolvable/good document loads to the two
good modules with the expected single failure log and single advisory. -/
theorem c3_mixed_validity_witness :
    (load_yaml "3.1.9" false c3inst c3doc false).1 =
      .ok ([c3loaded, c3loaded], .b false) ∧
    (load_yaml "3.1.9" false c3inst c3doc false).2.filter isModuleFailureLog =
      [.warnFailedToLoadModule "Bad" 2] ∧
    (load_yaml "3.1.9" false c3inst c3doc false).2.filter isCountMismatchLog =
      [.warnModulesNotImported 1] :=
  c3_mixed_validity "3.1.9" false c3inst c3doc
    (.dict [(H_CP_VERSION, .s "3.1.9"), (H_PIPELINE_VERSION, .i 5),
      (H_PIPELINE_DIMENSION, .b false), (H_MODULE_COUNT, .i 3)])
    (.i 5) (.s "3.1.9") (.b false)
    (.list [.dict [("Good", c3info)], .dict [("Bad", .dict [])],
      .dict [("Good", c3info)]])
    5 ⟨3, 1, 9, none⟩ ⟨3, 1, 9, none⟩
    (.dict [("Good", c3info)]) (.dict [("Bad", .dict [])]) (.dict [("Good", c3info)])
    "Good" "Bad" "Good" c3info (.dict []) c3info c3loaded c3loaded
    (.instantiationError "Bad")
    rfl rfl rfl (by decide) rfl rfl rfl rfl rfl rfl rfl rfl rfl rfl rfl rfl rfl

/-- C6 counterexample: a successfully materialized module is not assigned the
next sequential position number 1 — its `module_num` is the value recorded in
the file's private attributes (here 5), because the loop counter of lines
157-191 is never written onto the instance. -/
theorem c6_position_counterexample :
    (load_yaml "3.1.9" false c6inst c6doc false).1 = .ok ([c6loaded], .b false) ∧
    c6loaded.module_num = .i 5 ∧ YValue.i 5 ≠ YValue.i 1 :=
  ⟨rfl, rfl, by simp⟩

/-- C6 amended: the loader's internal 1-based position counter — observable
only in the per-module failure log events — advances on successful
materializations only (with records fail/succeed/fail the two failures log
positions 1 and 2, the second failure sitting at file position 3, so a
skipped record consumes no number); the materialized module's own
`module_num` field is not assigned from this counter but set from the file's
private-attributes mapping. -/
theorem c6_position_amended (cpver : String) (hl : Bool)
    (inst : String → Except PyErr Module)
    (doc header pv cpv vol ml : YValue) (v cnt : Int) (sv rv : StrictVer)
    (b1 b2 b3 : YValue) (n1 n2 n3 : String) (i1 i2 i3 : YValue)
    (m2 : Module) (e1 e3 : PyErr) (pa2 : List (String × YValue)) (num2 : YValue)
    (h1 : dictGet doc H_HEADER = .ok header)
    (h2 : dictGet header H_PIPELINE_VERSION = .ok pv)
    (h3 : pyInt pv = .ok v)
    (h4 : v ≤ CURRENT_PIPELINE_VERSION)
    (h5 : dictGet header H_CP_VERSION = .ok cpv)
    (h6 : strictVersionOf cpv = .ok sv)
    (h7 : parseStrictVersion cpver = some rv)
    (h8 : dictGet header H_PIPELINE_DIMENSION = .ok vol)
    (h9 : dictGet header H_MODULE_COUNT = .ok (.i cnt))
    (h10 : dictGet doc H_MODULE_LIST = .ok ml)
    (h11 : iterBlocks ml = .ok [b1, b2, b3])
    (hb1 : blockSplit b1 = .ok (n1, i1))
    (hm1 : inst n1 = .error e1)
    (hb2 : blockSplit b2 = .ok (n2, i2))
    (hm2 : loadOneModule inst n2 i2 = .ok m2)
    (hb3 : blockSplit b3 = .ok (n3, i3))
    (hm3 : inst n3 = .error e3)
    (hpa : dictGet i2 M_PRIVATE_ATTRIBUTES = .ok (.dict pa2))
    (hnd : (pa2.map Prod.fst).Nodup)
    (hnum : (M_MODULE_NUMBER, num2) ∈ pa2) :
    (load_yaml cpver hl inst doc false).1 = .ok ([m2], vol) ∧
    (load_yaml cpver hl inst doc false).2.filter isModuleFailureLog =
      [.warnFailedToLoadModule n1 1, .warnFailedToLoadModule n3 2] ∧
    m2.module_num = num2 := by
  obtain ⟨kvs, rfl⟩ := dictGet_ok_dict doc H_HEADER header h1
  have hm1f : loadOneModule inst n1 i1 = .error e1 := by
    simp only [loadOneModule, hm1]
  have hm3f : loadOneModule inst n3 i3 = .error e3 := by
    simp only [loadOneModule, hm3]
  have hloop : loadModulesLoop inst false [b1, b2, b3] 1 [] [] =
      (.ok [m2], [.warnFailedToLoadModule n1 1, .logException e1, .warnContinuing,
        .warnFailedToLoadModule n3 2, .logException e3, .warnContinuing]) := by
    simp [loadModulesLoop, hb1, hm1f, hb2, hm2, hb3, hm3f]
  have hnumq : m2.module_num = num2 := by
    have hg := loadOneModule_getattr inst n2 i2 pa2 m2 hpa hnd hm2
      (M_MODULE_NUMBER, num2) hnum
    have hgm : getattrM m2 M_MODULE_NUMBER = some m2.module_num := rfl
    rw [hgm] at hg
    exact Option.some.inj hg
  have hli := loadInner_eq cpver hl inst (.dict kvs) header pv cpv vol (.i cnt) ml
    false v sv rv [b1, b2, b3] h1 h2 h3 h4 h5 h6 h7 h8 h9 h10 h11
  rw [hloop] at hli
  refine ⟨?_, ?_, hnumq⟩
  · rw [load_yaml_dict, hli]
    rfl
  · rw [load_yaml_dict, hli]
    simp [countAdvisory, apply_ite (List.filter isModuleFailureLog),
      List.filter_append, isModuleFailureLog]

/-- C6 amended witness: the concrete fail/succeed/fail document yields one
module keeping its file-recorded position 7, with the two failures logged at
counter positions 1 and 2. -/
theorem c6_position_amended_witness :
    (load_yaml "3.1.9" false c6inst c6doc3 false).1 = .ok ([c6loaded7], .b false) ∧
    (load_yaml "3.1.9" false c6inst c6doc3 false).2.filter isModuleFailureLog =
      [.warnFailedToLoadModule "BadX" 1, .warnFailedToLoadModule "BadY" 2] ∧
    c6loaded7.module_num = .i 7 :=
  c6_position_amended "3.1.9" false c6inst c6doc3
    (.dict [(H_CP_VERSION, .s "3.1.9"), (H_PIPELINE_VERSION, .i 5),
      (H_PIPELINE_DIMENSION, .b false), (H_MODULE_COUNT, .i 3)])
    (.i 5) (.s "3.1.9") (.b false)
    (.list [.dict [("BadX", .dict [])], .dict [("Pos", c6info7)],
      .dict [("BadY", .dict [])]])
    5 3 ⟨3, 1, 9, none⟩ ⟨3, 1, 9, none⟩
    (.dict [("BadX", .dict [])]) (.dict [("Pos", c6info7)]) (.dict [("BadY", .dict [])])
    "BadX" "Pos" "BadY" (.dict []) c6info7 (.dict [])
    c6loaded7 (.instantiationError "BadX") (.instantiationError "BadY")
    [(M_MODULE_NUMBER, .i 7), (M_VARIABLE_REVISION, .i 1)] (.i 7)
    rfl rfl rfl (by decide) rfl rfl rfl rfl rfl rfl rfl rfl rfl rfl rfl rfl rfl rfl
    (by decide) (by simp)

/-- C10: for every module record whose type name resolves and whose
materialization succeeds, every key of the record's private-attributes
mapping (with its keys distinct, as Python mappings are) is readable back
from the new module instance via `getattr` with the recorded value — keys
outside the fixed documented field set included: unknown field names are
silently set rather than rejected (lines 172-175). -/
theorem c10_private_attrs_assigned (inst : String → Except PyErr Module)
    (name : String) (info : YValue) (pa : List (String × YValue)) (m2 : Module)
    (hinfo : dictGet info M_PRIVATE_ATTRIBUTES = .ok (.dict pa))
    (hnd : (pa.map Prod.fst).Nodup)
    (hok : loadOneModule inst name info = .ok m2) :
    ∀ kv ∈ pa, getattrM m2 kv.1 = some kv.2 :=
  loadOneModule_getattr inst name info pa m2 hinfo hnd hok

/-- C10 witness: a concrete record carrying the unknown key `custom_field`
materializes with that key silently set and readable back, alongside the
known `variable_revision_number`. -/
theorem c10_private_attrs_assigned_witness :
    loadOneModule c10inst "Ext" c10info = .ok c10loaded ∧
    getattrM c10loaded "custom_field" = some (.s "42") ∧
    getattrM c10loaded M_VARIABLE_REVISION = some (.i 1) :=
  ⟨rfl,
    c10_private_attrs_assigned c10inst "Ext" c10info
      [(M_VARIABLE_REVISION, .i 1), ("custom_field", .s "42")] c10loaded
      rfl (by decide) rfl ("custom_field", .s "42") (by simp),
    c10_private_attrs_assigned c10inst "Ext" c10info
      [(M_VARIABLE_REVISION, .i 1), ("custom_field", .s "42")] c10loaded
      rfl (by decide) rfl (M_VARIABLE_REVISION, .i 1) (by simp)⟩

end CPPipeline
